import Mathlib

/-!
Verification of the pure-arch disk provisioning engine.

This file embeds, in Lean, the parts of the repository that the frozen
claims are about:

* `src/pure_arch/utils/executor.py` — the `Executor` class: command
  preparation (`shlex.split` tokenization, chroot prefixing), dry-run
  substitution, and typed failure classification of executed commands
  (`_prepare_command`, `execute_command`, `run`).
* `src/pure_arch/disk.py` — `prepare_disk` (validation, the ordered
  sequence of provisioning commands, error handling) and
  `cleanup_mounts` (best-effort cleanup).

Python strings are modelled as Lean `String`s, machine integers as `Int`,
fallible code as `Except`, and the operating system as an oracle
(`Nat → ProcResult`) giving the result of each spawned process in order.
Python's `set(...)` iteration order is unspecified; it is modelled here as
first-occurrence order (no claim depends on the order inside that one loop).
Wall-clock timeout durations are not modelled (only the timeout outcome is).
-/

namespace PureArch

/-! ## Python string primitives -/

/-- The single-quote character, written via its code point. -/
def sq : Char := Char.ofNat 39

/-- A one-character string holding a single quote. -/
def sqStr : String := String.mk [sq]

/-- ASCII lower-casing of one character, as Python's `str.lower` acts on
the ASCII range (all strings scanned in the source are ASCII). -/
def asciiLowerChar (c : Char) : Char :=
  if 'A' ≤ c ∧ c ≤ 'Z' then Char.ofNat (c.toNat + 32) else c

/-- ASCII upper-casing of one character (Python `str.upper` on ASCII). -/
def asciiUpperChar (c : Char) : Char :=
  if 'a' ≤ c ∧ c ≤ 'z' then Char.ofNat (c.toNat - 32) else c

/-- Python `s.lower()` restricted to ASCII. -/
def pyLower (s : String) : String := String.mk (s.data.map asciiLowerChar)

/-- Python `s.upper()` restricted to ASCII. -/
def pyUpper (s : String) : String := String.mk (s.data.map asciiUpperChar)

/-- Python `s.lstrip(c)` on character lists: drop leading copies of `c`. -/
def pyLstripList (c : Char) (l : List Char) : List Char :=
  l.dropWhile (· = c)

/-- Python `s.strip(c)` on character lists: drop leading and trailing
copies of `c`. -/
def pyStripList (c : Char) (l : List Char) : List Char :=
  ((l.dropWhile (· = c)).reverse.dropWhile (· = c)).reverse

/-- Python `s.lstrip(c)` for a single strip character. -/
def pyLstrip (c : Char) (s : String) : String := String.mk (pyLstripList c s.data)

/-- Python `s.strip(c)` for a single strip character. -/
def pyStrip (c : Char) (s : String) : String := String.mk (pyStripList c s.data)

/-- Python whitespace characters recognised by `str.strip()` (ASCII part). -/
def pyIsSpace (c : Char) : Bool :=
  c = ' ' ∨ c = '\t' ∨ c = '\n' ∨ c = '\x0d' ∨ c = '\x0b' ∨ c = '\x0c'

/-- Python `s.strip()` with no argument: strip ASCII whitespace. -/
def pyTrim (s : String) : String :=
  String.mk (((s.data.dropWhile pyIsSpace).reverse.dropWhile pyIsSpace).reverse)

/-- Does `needle` occur as a contiguous substring of `hay`?  Models the
Python `needle in hay` test on strings. -/
def hasSubstrList : List Char → List Char → Bool
  | needle, [] => needle.isEmpty
  | needle, c :: rest => needle.isPrefixOf (c :: rest) || hasSubstrList needle rest

/-- Python `needle in hay` on strings. -/
def pyIn (needle hay : String) : Bool := hasSubstrList needle.data hay.data

/-- Does the string start with the given character? -/
def strStartsWithChar (c : Char) (s : String) : Bool :=
  match s.data with
  | [] => false
  | d :: _ => d = c

/-- Does the string end with the given character? -/
def strEndsWithChar (c : Char) (s : String) : Bool :=
  match s.data.reverse with
  | [] => false
  | d :: _ => d = c

/-- Python `os.path.join(a, b)` for exactly two components. -/
def pyPathJoin (a b : String) : String :=
  if strStartsWithChar '/' b then b
  else if a = "" ∨ strEndsWithChar '/' a then a ++ b
  else a ++ "/" ++ b

/-- Python truthiness-based `opt or dflt` for an optional string: `None`
and the empty string both fall back to the default. -/
def pyOrStr (o : Option String) (dflt : String) : String :=
  match o with
  | some s => if s = "" then dflt else s
  | none => dflt

/-- Python f-string rendering of an `Optional[str]`: `None` prints as the
four-character string `None`. -/
def pyFmtOptStr (o : Option String) : String :=
  match o with
  | some s => s
  | none => "None"

/-! ## `shlex.split` (posix mode, whitespace_split, no comments)

Model of CPython's `shlex` tokenizer as configured by `shlex.split`:
`posix=True`, `whitespace_split=True`, `commenters=''`,
`punctuation_chars=''`.  The tokenizer is a six-state machine; on an
unterminated quote it raises `ValueError("No closing quotation")` and on a
trailing escape character `ValueError("No escaped character")`. -/

/-- Lexer states of the `shlex` model. -/
inductive LexState
  | space
  | word
  | squote
  | dquote
  | escWord
  | escDquote
  deriving DecidableEq, Repr

/-- Is `c` `shlex` whitespace (`' \t\r\n'`)? -/
def shlexIsWs (c : Char) : Bool :=
  c = ' ' ∨ c = '\t' ∨ c = '\x0d' ∨ c = '\n'

/-- One pass of the `shlex.split` state machine.  `tok` is the current
token accumulated in reverse, `quoted` records whether the current token
passed through a quoted section, `acc` holds the finished tokens in
reverse.  Returns the token list or the `ValueError` message. -/
def shlexRun : List Char → LexState → List Char → Bool → List String →
    Except String (List String)
  | [], .space, _, _, acc => .ok acc.reverse
  | [], .word, tok, quoted, acc =>
    if tok.isEmpty ∧ ¬quoted then .ok acc.reverse
    else .ok (acc.reverse ++ [String.mk tok.reverse])
  | [], .squote, _, _, _ => .error "No closing quotation"
  | [], .dquote, _, _, _ => .error "No closing quotation"
  | [], .escWord, _, _, _ => .error "No escaped character"
  | [], .escDquote, _, _, _ => .error "No escaped character"
  | c :: rest, .space, _, _, acc =>
    if shlexIsWs c then shlexRun rest .space [] false acc
    else if c = '\\' then shlexRun rest .escWord [] false acc
    else if c = sq then shlexRun rest .squote [] true acc
    else if c = '"' then shlexRun rest .dquote [] true acc
    else shlexRun rest .word [c] false acc
  | c :: rest, .word, tok, quoted, acc =>
    if shlexIsWs c then
      if tok.isEmpty ∧ ¬quoted then shlexRun rest .space [] false acc
      else shlexRun rest .space [] false (String.mk tok.reverse :: acc)
    else if c = sq then shlexRun rest .squote tok true acc
    else if c = '"' then shlexRun rest .dquote tok true acc
    else if c = '\\' then shlexRun rest .escWord tok quoted acc
    else shlexRun rest .word (c :: tok) quoted acc
  | c :: rest, .squote, tok, _, acc =>
    if c = sq then shlexRun rest .word tok true acc
    else shlexRun rest .squote (c :: tok) true acc
  | c :: rest, .dquote, tok, _, acc =>
    if c = '"' then shlexRun rest .word tok true acc
    else if c = '\\' then shlexRun rest .escDquote tok true acc
    else shlexRun rest .dquote (c :: tok) true acc
  | c :: rest, .escWord, tok, quoted, acc =>
    shlexRun rest .word (c :: tok) quoted acc
  | c :: rest, .escDquote, tok, _, acc =>
    if c = '"' ∨ c = '\\' then shlexRun rest .dquote (c :: tok) true acc
    else shlexRun rest .dquote (c :: '\\' :: tok) true acc

/-- Model of Python `shlex.split(s)` (posix, whitespace split, comments
disabled): the token list, or the `ValueError` message text. -/
def shlexSplit (s : String) : Except String (List String) :=
  shlexRun s.data .space [] false []

/-! ## `shlex.join` and `repr` -/

/-- Characters that `shlex.quote` leaves unescaped: ASCII alphanumerics,
underscore, and the punctuation at, percent, plus, equals, colon, comma,
dot, slash, dash. -/
def shlexSafeChar (c : Char) : Bool :=
  ('a' ≤ c ∧ c ≤ 'z') ∨ ('A' ≤ c ∧ c ≤ 'Z') ∨ ('0' ≤ c ∧ c ≤ '9') ∨
    c = '_' ∨ c = '@' ∨ c = '%' ∨ c = '+' ∨ c = '=' ∨ c = ':' ∨
    c = ',' ∨ c = '.' ∨ c = '/' ∨ c = '-'

/-- Replace every occurrence of the character `c` in `s` by the string
`r` (enough of Python `str.replace` for the single-character patterns the
source uses). -/
def charReplace (c : Char) (r : String) (s : String) : String :=
  String.mk (s.data.flatMap (fun d => if d = c then r.data else [d]))

/-- Model of Python `shlex.quote(s)`. -/
def shlexQuote (s : String) : String :=
  if s = "" then sqStr ++ sqStr
  else if s.data.all shlexSafeChar then s
  else sqStr ++ (charReplace sq (sqStr ++ "\"" ++ sqStr ++ "\"" ++ sqStr) s) ++ sqStr

/-- Model of Python `shlex.join(args)`. -/
def shlexJoin (args : List String) : String :=
  String.intercalate " " (args.map shlexQuote)

/-- Python `repr` of one string (quote choice rule for the error paths
that stringify a command list). -/
def pyReprStr (s : String) : String :=
  if pyIn sqStr s ∧ ¬pyIn "\"" s then "\"" ++ s ++ "\""
  else sqStr ++ (charReplace sq ("\\" ++ sqStr) s) ++ sqStr

/-- Python `str(l)` for a list of strings, as used by
`InvalidCommandError(str(command), ...)`. -/
def pyReprStrList (l : List String) : String :=
  "[" ++ String.intercalate ", " (l.map pyReprStr) ++ "]"

/-! ## Executor (`src/pure_arch/utils/executor.py`)

A command is either a Python string or a list of strings (`Union[str,
list]` in the source; list elements are strings by the type model, which
is the only well-typed case `_prepare_command` accepts). -/

/-- A command as passed to `Executor.run` / `Executor.execute_command`. -/
inductive Cmd
  | str (s : String)
  | args (l : List String)
  deriving DecidableEq, Repr

/-- Python `str(command)`, as used when an error stringifies the raw
command argument. -/
def Cmd.pyStr : Cmd → String
  | .str s => s
  | .args l => pyReprStrList l

/-- The command string used for logging and error payloads:
`shlex.join(command) if isinstance(command, list) else command`. -/
def Cmd.logStr : Cmd → String
  | .str s => s
  | .args l => shlexJoin l

/-- The closed taxonomy of executor exceptions (`ShellCommandError` and
its subclasses).  Each constructor carries the payload its Python
`__init__` stores; the fixed per-subclass exit codes (127, 124, -2, 126)
are recovered by `ShellErr.exitCode`. -/
inductive ShellErr
  | shellCommandError (command : String) (exitCode : Int)
      (stdout stderr message : String)
  | commandNotFoundError (command stdout stderr : String)
  | commandTimeoutError (command stdout stderr : String)
  | invalidCommandError (command message : String)
  | permissionDeniedError (command stdout stderr : String)
  deriving DecidableEq, Repr

/-- The `exit_code` attribute each exception class stores. -/
def ShellErr.exitCode : ShellErr → Int
  | .shellCommandError _ c _ _ _ => c
  | .commandNotFoundError _ _ _ => 127
  | .commandTimeoutError _ _ _ => 124
  | .invalidCommandError _ _ => -2
  | .permissionDeniedError _ _ _ => 126

/-- The parsing part of `Executor._prepare_command`: reject an empty
command (the `if not command` truthiness test), tokenize a string command
with `shlex.split` (re-raising its `ValueError` as
`InvalidCommandError`), and take a list command verbatim. -/
def parseCommand : Cmd → Except ShellErr (List String)
  | .str s =>
    if s = "" then
      .error (.invalidCommandError (Cmd.pyStr (.str s)) "Command cannot be empty.")
    else
      match shlexSplit s with
      | .ok toks => .ok toks
      | .error m =>
        .error (.invalidCommandError s ("Failed to parse command string: " ++ m))
  | .args l =>
    if l.isEmpty then
      .error (.invalidCommandError (Cmd.pyStr (.args l)) "Command cannot be empty.")
    else
      .ok l

/-- Model of `Executor._prepare_command(command, chroot)`: parse the
command and prepend `["arch-chroot", chroot_path]` when `chroot` is
true. -/
def prepare_command (command : Cmd) (chroot : Bool) (chrootPath : String) :
    Except ShellErr (List String) :=
  match parseCommand command with
  | .error e => .error e
  | .ok parsed =>
    if chroot then .ok (["arch-chroot", chrootPath] ++ parsed)
    else .ok parsed

/-- What `subprocess.run` would have done for a spawned process: normal
completion with an exit code, timeout expiry, `FileNotFoundError` when
the binary cannot be spawned, or any other unexpected exception.  The
operating system is modelled as an oracle producing these. -/
inductive ProcResult
  | completed (code : Int) (stdout stderr : String)
  | timedOut (stdout stderr : String)
  | spawnNotFound
  | unexpected (msg : String)
  deriving DecidableEq, Repr

/-- A spawn request actually handed to the operating system: an argv
vector (`shell=False`) or a string interpreted by a shell (`shell=True`). -/
inductive SpawnReq
  | argv (l : List String)
  | shellCmd (s : String)
  deriving DecidableEq, Repr

instance {ε α : Type} [DecidableEq ε] [DecidableEq α] : DecidableEq (Except ε α) :=
  fun x y =>
  match x, y with
  | .ok a, .ok b => if h : a = b then .isTrue (by rw [h]) else .isFalse (by simp [h])
  | .error a, .error b => if h : a = b then .isTrue (by rw [h]) else .isFalse (by simp [h])
  | .ok _, .error _ => .isFalse (by simp)
  | .error _, .ok _ => .isFalse (by simp)

/-- The observable outcome of one `run`/`execute_command` call: the
processes spawned (at most one) and the returned triple or the raised
exception. -/
structure RunResult where
  spawns : List SpawnReq
  out : Except ShellErr (Int × String × String)
  deriving DecidableEq, Repr

/-- Classification of a non-zero exit under `check=True`
(`execute_command`, the three-way branch on stderr phrases and exit
code). -/
def classifyNonZero (cmdStr : String) (code : Int) (stdout stderr : String) : ShellErr :=
  if pyIn "command not found" (pyLower stderr) ∨
      pyIn "no such file or directory" (pyLower stderr) ∨ code = 127 then
    .commandNotFoundError cmdStr stdout stderr
  else if pyIn "permission denied" (pyLower stderr) ∨ code = 126 then
    .permissionDeniedError cmdStr stdout stderr
  else
    .shellCommandError cmdStr code stdout stderr
      ("Command failed with exit code " ++ toString code)

/-- Model of `Executor.execute_command(command, capture_output, timeout,
check, shell, cwd)`.  `proc` is the oracle's answer for the process this
call spawns.  Timeout durations and `cwd` carry no observable behaviour
in the model and are omitted. -/
def execute_command (proc : ProcResult) (command : Cmd)
    (capture_output check shell : Bool) : RunResult :=
  let cmdStr := command.logStr
  let toExecute : Except ShellErr SpawnReq :=
    if shell then
      .ok (.shellCmd command.logStr)
    else
      match command with
      | .str s => (prepare_command (.str s) false "") |>.map .argv
      | .args l => .ok (.argv l)
  match toExecute with
  | .error e => ⟨[], .error e⟩
  | .ok req =>
    match proc with
    | .completed code out err =>
      let stdout := if capture_output then out else ""
      let stderr := if capture_output then err else ""
      if check ∧ code ≠ 0 then
        ⟨[req], .error (classifyNonZero cmdStr code stdout stderr)⟩
      else
        ⟨[req], .ok (code, stdout, stderr)⟩
    | .timedOut out err =>
      ⟨[req], .error (.commandTimeoutError cmdStr out err)⟩
    | .spawnNotFound =>
      ⟨[req], .error (.commandNotFoundError cmdStr "" "Command not found. Check PATH.")⟩
    | .unexpected m =>
      ⟨[req], .error (.shellCommandError cmdStr (-1) "" ""
          ("An unexpected error occurred: " ++ m))⟩

/-- Model of `Executor.run(description, command, chroot, dryrun,
capture_output, timeout, check, shell, cwd)`.  The description only feeds
logging, so it does not appear among the arguments; `proc` is the
oracle's answer for the process the call would spawn. -/
def runExec (proc : ProcResult) (chrootPath : String) (command : Cmd)
    (chroot dryrun capture_output check shell : Bool) : RunResult :=
  match prepare_command command chroot chrootPath with
  | .error e => ⟨[], .error e⟩
  | .ok prepared =>
    if dryrun then
      ⟨[], .ok (0, "DRY_RUN_STDOUT", "DRY_RUN_STDERR")⟩
    else
      let cmdToPass : Cmd := if shell then .str command.logStr else .args prepared
      execute_command proc cmdToPass capture_output check shell

/-! ## Configuration data model (`src/pure-arch/config/models.py`)

`Partition` and `Disk` mirror the pydantic models; `Literal` fields stay
`String` so the source's string comparisons transfer verbatim, and
`Optional` fields are `Option`. -/

/-- One partition of the disk plan (`Partition` pydantic model). -/
structure Partition where
  number : Nat
  label : String
  type : String
  size : String
  start : Option String := some "0"
  path : Option String := none
  guid : Option String := none
  filesystem : String
  crypt : Bool
  crypttype : Option String := some "luks2"
  cryptname : Option String := none
  cryptlabel : Option String := none
  btrfsoptions : Option String := none
  btrfssubvolumes : Option (List String) := none
  deriving DecidableEq, Repr

/-- One physical disk of the plan (`Disk` pydantic model). -/
structure Disk where
  path : String
  wipe : Bool
  type : String
  partition : List Partition
  deriving DecidableEq, Repr

/-- The slice of `ArchInstallerConfig` that `prepare_disk` reads. -/
structure Config where
  disk : List Disk
  deriving DecidableEq, Repr

/-! ## Disk provisioning (`src/pure_arch/disk.py`) -/

/-- Is the partition's filesystem in `("fat32", "vfat")`? -/
def isEfiCandidate (p : Partition) : Bool :=
  p.filesystem = "fat32" ∨ p.filesystem = "vfat"

/-- Does the partition satisfy `p.crypt and p.filesystem == "btrfs"`? -/
def isRootCandidate (p : Partition) : Bool :=
  p.crypt ∧ p.filesystem = "btrfs"

/-- The partition-location loop of `prepare_disk`: two mutable optionals
updated while iterating the partition list (the `if`/`elif` body). -/
def locatePartitions (ps : List Partition) :
    Option Partition × Option Partition :=
  ps.foldl
    (fun er p =>
      if isEfiCandidate p then (some p, er.2)
      else if isRootCandidate p then (er.1, some p)
      else er)
    (none, none)

/-- Python truthiness of `root_config.btrfssubvolumes`: neither `None`
nor the empty list. -/
def subvolsTruthy (p : Partition) : Bool :=
  match p.btrfssubvolumes with
  | some (_ :: _) => true
  | _ => false

/-- The validation stage of `prepare_disk` (its first two `raise
ValueError` checks): no disks, or missing EFI / encrypted-BTRFS-root /
subvolume list.  On success it yields the first disk and the located EFI
and root partitions. -/
def validateDiskConfig (cfg : Config) :
    Except String (Disk × Partition × Partition) :=
  match cfg.disk with
  | [] => .error "Configuration requires at least one disk."
  | d :: _ =>
    match locatePartitions d.partition with
    | (some efi, some root) =>
      if subvolsTruthy root then .ok (d, efi, root)
      else .error "Disk config is incomplete for LUKS+BTRFS setup."
    | _ => .error "Disk config is incomplete for LUKS+BTRFS setup."

/-- The subvolume-name cleaning applied in both subvolume loops:
`s.strip('/').lstrip('@')`. -/
def cleanSubvolName (s : String) : String :=
  pyLstrip '@' (pyStrip '/' s)

/-- `cleaned_subvols`: clean every listed subvolume whose whitespace-trim
is non-empty. -/
def cleanedSubvols (subvols : List String) : List String :=
  (subvols.filter (fun s => pyTrim s ≠ "")).map cleanSubvolName

/-- `subvolumes_to_create`: the root subvolume `@` followed by every
non-empty cleaned name. -/
def subvolumesToCreate (subvols : List String) : List String :=
  "@" :: (cleanedSubvols subvols).filter (· ≠ "")

/-- Deduplication preserving first occurrences.  Models the `set(...)`
wrapped around `subvolumes_to_create`; Python's set iteration order is
unspecified, and no claim depends on the order chosen here. -/
def dedupKeepFirst : List String → List String
  | [] => []
  | x :: xs => x :: ((dedupKeepFirst xs).filter (· ≠ x))

/-- One planned `executor.run` invocation of `prepare_disk`: the
description, the command argument, and the `capture_output` flag it
passes (`check` is left at its default `True` for every planned step). -/
structure Step where
  descr : String
  cmd : Cmd
  capture : Bool := true
  deriving DecidableEq, Repr

/-- The `sgdisk` triple built for one partition:
`-n<number>:<start>:<size> -t<number>:<guid or type> -c<number>:<label>`. -/
def sgdiskTriple (p : Partition) : List String :=
  [ "-n" ++ toString p.number ++ ":" ++ pyOrStr p.start "0" ++ ":" ++ p.size
  , "-t" ++ toString p.number ++ ":" ++ pyOrStr p.guid p.type
  , "-c" ++ toString p.number ++ ":" ++ p.label ]

/-- The `printf "<password>" | cryptsetup --batch-mode luksFormat ...`
shell string, exactly as the triple-quoted f-string renders it. -/
def luksFormatCommand (pw cryptType cryptLabelArg rootPart : String) : String :=
  "\n            printf \"" ++ pw ++ "\" | cryptsetup --batch-mode luksFormat\n            --type=" ++
    cryptType ++ " " ++ cryptLabelArg ++ " " ++ rootPart ++ "\n        "

/-- The `printf "<password>" | cryptsetup luksOpen ...` shell string,
exactly as the triple-quoted f-string renders it. -/
def luksOpenCommand (pw rootPart mapperName : String) : String :=
  "\n            printf \"" ++ pw ++ "\" | cryptsetup luksOpen\n            " ++
    rootPart ++ " " ++ mapperName ++ "\n        "

/-- The steps issued before the two LUKS commands: the conditional wipe,
partition creation, and the partition-table reread. -/
def stepsBeforeLuks (d : Disk) : List Step :=
  (if d.wipe then
    [⟨"Wiping existing partitions and partition table on " ++ d.path,
      .str ("sgdisk -Z " ++ d.path), true⟩]
   else []) ++
  [ ⟨"Creating partitions based on config",
      .args (["sgdisk"] ++ d.partition.flatMap sgdiskTriple ++ [d.path]), true⟩
  , ⟨"Updating kernel partition table", .str ("partprobe -s " ++ d.path), true⟩ ]

/-- The two non-interactive LUKS steps (`luksFormat` then `luksOpen`),
both run with `capture_output=False`. -/
def luksSteps (d : Disk) (root : Partition) (pw : String) : List Step :=
  let rootPart := d.path ++ toString root.number
  let cryptType := pyOrStr root.crypttype "luks2"
  let cryptLabelArg :=
    match root.cryptlabel with
    | some s => if s = "" then "" else "--label=" ++ s
    | none => ""
  let mapperName := pyOrStr root.cryptname "linuxroot"
  let luksDevice := "/dev/mapper/" ++ mapperName
  [ ⟨"Encrypting root partition " ++ rootPart ++ " with " ++ cryptType ++
        " (Non-Interactive)",
      .str (luksFormatCommand pw cryptType cryptLabelArg rootPart), false⟩
  , ⟨"Opening LUKS volume as " ++ luksDevice ++ " (Non-Interactive)",
      .str (luksOpenCommand pw rootPart mapperName), false⟩ ]

/-- The destination-directory/mount step pair that the remount loop of
`prepare_disk` emits for one raw subvolume entry — nothing for an entry
whose cleaned name is whitespace-empty (the root path `/`), which stays
mounted at the mount root `/mnt` by the preceding remount step. -/
def remountStepsFor (btrfsOptions luksDevice : String) (raw : String) : List Step :=
  let name := cleanSubvolName raw
  if pyTrim name = "" then []
  else
    let mountPath := pyPathJoin "/mnt" name
    [ ⟨"Creating destination directory " ++ mountPath,
        .args ["mkdir", "-p", mountPath], true⟩
    , ⟨"Mounting subvolume @" ++ name ++ " to " ++ mountPath,
        .args ["mount", "-o", btrfsOptions ++ ",subvol=@" ++ name, luksDevice, mountPath],
        true⟩ ]

/-- The steps issued after the LUKS commands: filesystem creation, the
two-phase subvolume creation and remount, and the EFI mount. -/
def stepsAfterLuks (d : Disk) (efi root : Partition) : List Step :=
  let efiPart := d.path ++ toString efi.number
  let luksDevice := "/dev/mapper/" ++ pyOrStr root.cryptname "linuxroot"
  let subvols := root.btrfssubvolumes.getD []
  let btrfsOptions := pyOrStr root.btrfsoptions "noatime,compress=zstd"
  let rootMountOptions := btrfsOptions ++ ",subvol=@"
  let efiMountPoint := "/mnt" ++ pyFmtOptStr efi.path
  [ ⟨"Creating " ++ pyUpper efi.filesystem ++ " filesystem on EFI partition " ++ efiPart,
      .args ["mkfs.vfat", "-F32", "-n", efi.label, efiPart], true⟩
  , ⟨"Creating BTRFS filesystem on LUKS volume " ++ luksDevice,
      .args ["mkfs.btrfs", "-f", "-L", pyOrStr root.cryptlabel "linuxroot", luksDevice], true⟩
  , ⟨"Mounting BTRFS volume " ++ luksDevice ++ " to /mnt for subvolume creation",
      .args ["mount", luksDevice, "/mnt"], true⟩ ] ++
  (dedupKeepFirst (subvolumesToCreate subvols)).map (fun name =>
    ⟨"Creating BTRFS subvolume @" ++ name,
      .args ["btrfs", "subvolume", "create",
        if name = "@" then "/mnt/@" else "/mnt/@" ++ name], true⟩) ++
  [ ⟨"Unmounting /mnt to prepare for subvolume remounting",
      .args ["umount", "/mnt"], true⟩
  , ⟨"Remounting BTRFS root subvolume to /mnt with options: " ++ rootMountOptions,
      .args ["mount", "-o", rootMountOptions, luksDevice, "/mnt"], true⟩ ] ++
  (subvols.flatMap (remountStepsFor btrfsOptions luksDevice)) ++
  [ ⟨"Creating EFI mount point " ++ efiMountPoint,
      .args ["mkdir", "-p", efiMountPoint], true⟩
  , ⟨"Mounting EFI partition " ++ efiPart ++ " to " ++ efiMountPoint,
      .args ["mount", "-o", "uid=0,gid=0,umask=077", efiPart, efiMountPoint], true⟩ ]

/-- All `executor.run` invocations of `prepare_disk`'s `try` block, in
source order. -/
def plannedSteps (d : Disk) (efi root : Partition) (pw : String) : List Step :=
  stepsBeforeLuks d ++ luksSteps d root pw ++ stepsAfterLuks d efi root

/-- The list index of the `luksFormat` step inside `plannedSteps` (the
`luksOpen` step immediately follows it). -/
def luksFormatIdx (d : Disk) : Nat := if d.wipe then 3 else 2

/-- One observed `executor.run` call: its description, the command passed,
and the processes it spawned. -/
structure Event where
  descr : String
  cmd : Cmd
  spawns : List SpawnReq
  deriving DecidableEq, Repr

/-- Result of running a list of planned steps in order: either all
succeeded, or a step raised and the remaining steps were skipped.  The
`Nat` is the oracle index after the last spawn. -/
inductive StepsOut
  | allOk (events : List Event) (ctr : Nat)
  | failed (events : List Event) (ctr : Nat) (e : ShellErr)
  deriving DecidableEq, Repr

/-- Execute planned steps sequentially (each is an `executor.run` call
with `chroot=False`, `shell=False`, `check=True`), stopping at the first
raised exception. -/
def runSteps (os : Nat → ProcResult) : Nat → List Step → Bool → StepsOut
  | ctr, [], _ => .allOk [] ctr
  | ctr, s :: rest, dry =>
    let r := runExec (os ctr) "/mnt" s.cmd false dry s.capture true false
    let ev : Event := ⟨s.descr, s.cmd, r.spawns⟩
    let ctr' := ctr + r.spawns.length
    match r.out with
    | .error e => .failed [ev] ctr' e
    | .ok _ =>
      match runSteps os ctr' rest dry with
      | .allOk evs c => .allOk (ev :: evs) c
      | .failed evs c e => .failed (ev :: evs) c e

/-- The two best-effort commands of `cleanup_mounts`, both run with
`check=False`, inside `try: ... except Exception: ...`.  If the first
`run` itself raises (a non-exit failure such as a timeout or a missing
binary; non-zero exits do not raise because `check=False`), the second is
never reached and the exception is swallowed; any exception of the second
is swallowed likewise, so `cleanup_mounts` always returns. -/
def cleanup_mounts (os : Nat → ProcResult) (ctr : Nat) (dry : Bool) :
    List Event × Nat :=
  let c1 : Cmd := .args ["umount", "-R", "/mnt"]
  let r1 := runExec (os ctr) "/mnt" c1 false dry true false false
  let ev1 : Event := ⟨"Unmounting all recursively from /mnt", c1, r1.spawns⟩
  let ctr1 := ctr + r1.spawns.length
  match r1.out with
  | .error _ => ([ev1], ctr1)
  | .ok _ =>
    let c2 : Cmd := .args ["cryptsetup", "luksClose", "linuxroot"]
    let r2 := runExec (os ctr1) "/mnt" c2 false dry true false false
    let ev2 : Event := ⟨"Closing LUKS volume " ++ sqStr ++ "linuxroot" ++ sqStr,
      c2, r2.spawns⟩
    ([ev1, ev2], ctr1 + r2.spawns.length)

/-- Exceptions escaping `prepare_disk`: the validation `ValueError`s or a
re-raised `ShellCommandError` (subclass). -/
inductive PyErr
  | valueError (msg : String)
  | shell (e : ShellErr)
  deriving DecidableEq, Repr

/-- The full observable outcome of one `prepare_disk` invocation. -/
structure Outcome where
  events : List Event
  cleanupInvocations : Nat
  result : Except PyErr Unit
  deriving DecidableEq, Repr

/-- Model of `prepare_disk(executor, config, dry_run)`.  The LUKS
password is a parameter: the source obtains it from
`_get_luks_password_placeholder` (a placeholder returning `"123"` that
the comments require replacing with real secret retrieval), and the
claims quantify over it.  Validation runs first; on success the `try`
block executes the planned commands in order, and a raised
`ShellCommandError` triggers one `cleanup_mounts` call followed by a
re-raise of the original exception. -/
def prepare_disk (os : Nat → ProcResult) (cfg : Config) (pw : String)
    (dry_run : Bool) : Outcome :=
  match validateDiskConfig cfg with
  | .error m => ⟨[], 0, .error (.valueError m)⟩
  | .ok (d, efi, root) =>
    if pw = "" ∧ dry_run = false then
      ⟨[], 0, .error (.valueError "LUKS password is required for non-interactive setup.")⟩
    else
      match runSteps os 0 (plannedSteps d efi root pw) dry_run with
      | .allOk evs _ => ⟨evs, 0, .ok ()⟩
      | .failed evs ctr e =>
        let cl := cleanup_mounts os ctr dry_run
        ⟨evs ++ cl.1, 1, .error (.shell e)⟩

/-! ## Concrete fixtures used by witnesses and concrete scenarios -/

/-- Partition 1 of the end-to-end scenario plan: `EFI`, `EF00`, `4G`,
`vfat`, mounted at `/efi`. -/
def partEfiScen : Partition :=
  { number := 1, label := "EFI", type := "EF00", size := "4G",
    path := some "/efi", filesystem := "vfat", crypt := false }

/-- Partition 2 of the end-to-end scenario plan: `ROOT`, `8304`, `10G`,
encrypted `btrfs` with subvolumes `/`, `/var`, `/.snapshots`. -/
def partRootScen : Partition :=
  { number := 2, label := "ROOT", type := "8304", size := "10G",
    filesystem := "btrfs", crypt := true,
    btrfssubvolumes := some ["/", "/var", "/.snapshots"] }

/-- The end-to-end scenario disk: `/dev/sdb`, GPT, wiped. -/
def diskScen : Disk :=
  { path := "/dev/sdb", wipe := true, type := "GPT",
    partition := [partEfiScen, partRootScen] }

/-- The end-to-end scenario configuration. -/
def cfgScen : Config := { disk := [diskScen] }

/-- An operating-system oracle on which every spawned process succeeds
with exit code 0. -/
def osAllOk : Nat → ProcResult := fun _ => .completed 0 "" ""

/-- The last element of a list satisfying a Boolean predicate, if any:
the value a "keep overwriting an optional while iterating" loop ends
with. -/
def lastSatisfying (P : Partition → Bool) : List Partition → Option Partition
  | [] => none
  | p :: ps =>
    match lastSatisfying P ps with
    | some q => some q
    | none => if P p then some p else none

/-- The guard actually governing the `elif` branch of the location loop:
reached only when the `if` guard failed. -/
def elifRootGuard (p : Partition) : Bool :=
  !isEfiCandidate p && isRootCandidate p

/-- A disk plan holding two EFI-filesystem partitions (one `vfat`, one
`fat32`) together with one encrypted-BTRFS root. -/
def diskTwoEfi : Disk :=
  { path := "/dev/sda", wipe := false, type := "GPT",
    partition :=
      [ { number := 1, label := "EFI1", type := "EF00", size := "1G",
          path := some "/efi", filesystem := "vfat", crypt := false }
      , { number := 2, label := "EFI2", type := "EF00", size := "1G",
          path := some "/boot", filesystem := "fat32", crypt := false }
      , { number := 3, label := "ROOT", type := "8304", size := "0",
          filesystem := "btrfs", crypt := true,
          btrfssubvolumes := some ["/"] } ] }

/-- The configuration wrapping `diskTwoEfi`. -/
def cfgTwoEfi : Config := { disk := [diskTwoEfi] }

/-- The events of a `runSteps` outcome. -/
def StepsOut.eventsOf : StepsOut → List Event
  | .allOk evs _ => evs
  | .failed evs _ _ => evs

/-- The final oracle index of a `runSteps` outcome. -/
def StepsOut.ctrOf : StepsOut → Nat
  | .allOk _ c => c
  | .failed _ c _ => c

/-- The exception of a failed `runSteps` outcome (a placeholder on the
success branch). -/
def StepsOut.errOf : StepsOut → ShellErr
  | .allOk _ _ => .invalidCommandError "" ""
  | .failed _ _ e => e

/-- An oracle that reports success for the first five spawned processes,
a non-zero exit for the sixth (the `mkfs.vfat` step of the scenario plan,
i.e. the "FormatFilesystems" stage), and a missing binary for everything
after it — so both of the cleanup handler's own commands fail. -/
def osFailMkfs : Nat → ProcResult := fun n =>
  if n < 5 then .completed 0 "" ""
  else if n = 5 then .completed 1 "" "mkfs failure"
  else .spawnNotFound

/-- A non-empty command string with an unterminated single quote. -/
def badQuoteCmd : String := "echo " ++ sqStr ++ "oops"

/-- The character list does not begin with `c`. -/
def headNotC (c : Char) : List Char → Prop
  | [] => True
  | d :: _ => d ≠ c

end PureArch

/-! ### Sanity checks of the string/shlex model against CPython -/

example : PureArch.shlexSplit "sgdisk -Z /dev/sdb" = .ok ["sgdisk", "-Z", "/dev/sdb"] := by
  rfl

example : PureArch.shlexSplit "" = .ok [] := by rfl

example :
    PureArch.shlexSplit "a\"b c\"d" = .ok ["ab cd"] := by rfl

example : PureArch.shlexSplit ("echo " ++ PureArch.sqStr ++ "oops")
    = .error "No closing quotation" := by rfl

example : PureArch.shlexSplit "abc\\" = .error "No escaped character" := by rfl

example : PureArch.shlexSplit (PureArch.sqStr ++ PureArch.sqStr) = .ok [""] := by rfl

example : PureArch.shlexSplit "x \\$y" = .ok ["x", "$y"] := by rfl

example : PureArch.shlexSplit "\"a\\\"b\\n\"" = .ok ["a\"b\\n"] := by rfl

example : PureArch.shlexJoin ["ls"] = "ls" := by rfl

example :
    PureArch.shlexJoin ["a b", "c" ++ PureArch.sqStr ++ "d", ""]
      = (PureArch.sqStr ++ "a b" ++ PureArch.sqStr ++ " " ++ PureArch.sqStr ++ "c" ++
          PureArch.sqStr ++ "\"" ++ PureArch.sqStr ++ "\"" ++ PureArch.sqStr ++ "d" ++
          PureArch.sqStr ++ " " ++ PureArch.sqStr ++ PureArch.sqStr) := by rfl

example : PureArch.pyStrip '/' "@/var" = "@/var" := by rfl
example : PureArch.pyLstrip '@' "@/var" = "/var" := by rfl
example : PureArch.pyPathJoin "/mnt" "var" = "/mnt/var" := by rfl
example : PureArch.pyPathJoin "/mnt" "/var" = "/var" := by rfl
example : PureArch.pyUpper "vfat" = "VFAT" := by rfl
example : PureArch.pyIn "no such file" "cat: No Such File or directory" = false := by rfl
example : PureArch.pyIn "no such file" (PureArch.pyLower "cat: No Such File or directory") = true := by
  rfl

/-! ## Theorems -/

namespace PureArch

theorem lastSatisfying_isSome_iff_any (P : Partition → Bool) (ps : List Partition) :
    (lastSatisfying P ps).isSome = ps.any P := by
  induction ps with
  | nil => rfl
  | cons p ps ih =>
    simp only [lastSatisfying, List.any_cons]
    cases h : lastSatisfying P ps with
    | none =>
      rw [h] at ih
      cases hp : P p <;> simp [hp, ← ih]
    | some q =>
      rw [h] at ih
      simp [← ih]

theorem locatePartitions_foldl (ps : List Partition)
    (init : Option Partition × Option Partition) :
    ps.foldl
      (fun er p =>
        if isEfiCandidate p then (some p, er.2)
        else if isRootCandidate p then (er.1, some p)
        else er)
      init =
    ((lastSatisfying isEfiCandidate ps).elim init.1 some,
      (lastSatisfying elifRootGuard ps).elim init.2 some) := by
  induction ps generalizing init with
  | nil => simp [lastSatisfying]
  | cons p ps ih =>
    simp only [List.foldl_cons, lastSatisfying]
    rw [ih]
    cases hefi : isEfiCandidate p with
    | true =>
      cases h1 : lastSatisfying isEfiCandidate ps <;>
        cases h2 : lastSatisfying elifRootGuard ps <;>
          simp [elifRootGuard, hefi]
    | false =>
      cases hroot : isRootCandidate p with
      | true =>
        cases h1 : lastSatisfying isEfiCandidate ps <;>
          cases h2 : lastSatisfying elifRootGuard ps <;>
            simp [elifRootGuard, hefi, hroot]
      | false =>
        cases h1 : lastSatisfying isEfiCandidate ps <;>
          cases h2 : lastSatisfying elifRootGuard ps <;>
            simp [elifRootGuard, hefi, hroot]

theorem isRootCandidate_not_efi (p : Partition) (h : isRootCandidate p = true) :
    isEfiCandidate p = false := by
  simp only [isRootCandidate, Bool.decide_and, Bool.and_eq_true, decide_eq_true_eq] at h
  simp [isEfiCandidate, h.2]

theorem lastSatisfying_root_simplify (ps : List Partition) :
    lastSatisfying elifRootGuard ps = lastSatisfying isRootCandidate ps := by
  induction ps with
  | nil => rfl
  | cons p ps ih =>
    simp only [lastSatisfying, ih]
    cases h : lastSatisfying isRootCandidate ps with
    | some q => rfl
    | none =>
      cases hroot : isRootCandidate p with
      | true => simp [elifRootGuard, isRootCandidate_not_efi p hroot, hroot]
      | false => simp [elifRootGuard, hroot]

theorem locatePartitions_eq (ps : List Partition) :
    locatePartitions ps =
      (lastSatisfying isEfiCandidate ps, lastSatisfying isRootCandidate ps) := by
  rw [locatePartitions, locatePartitions_foldl, lastSatisfying_root_simplify]
  cases lastSatisfying isEfiCandidate ps <;> cases lastSatisfying isRootCandidate ps <;> rfl


/-- C1 counterexample: a plan with TWO fat32/vfat partitions passes
`prepare_disk` validation, so "more than one fat32/vfat partition raises
a configuration error" is false of the code. -/
theorem validation_accepts_two_efi_partitions :
    (diskTwoEfi.partition.filter isEfiCandidate).length = 2 ∧
      (validateDiskConfig cfgTwoEfi).isOk = true := by
  constructor
  · rfl
  · rfl

/-- C1 (amended): `prepare_disk` validation accepts a configuration iff
its disk list is non-empty and the first disk has at least one fat32/vfat
partition and the LAST partition that is both encrypted and btrfs exists
and carries a non-`None`, non-empty subvolume list.  Zero matching
partitions of either kind is rejected, but several are accepted (the last
of each is selected); "exactly one of each" is not enforced. -/
theorem validateDiskConfig_accepts_iff (cfg : Config) :
    (validateDiskConfig cfg).isOk = true ↔
      ∃ d rest, cfg.disk = d :: rest ∧
        d.partition.any isEfiCandidate = true ∧
        ∃ r, lastSatisfying isRootCandidate d.partition = some r ∧
          subvolsTruthy r = true := by
  cases hdisk : cfg.disk with
  | nil =>
    simp only [validateDiskConfig, hdisk]
    constructor
    · intro h
      cases h
    · rintro ⟨d, rest, h, -⟩
      cases h
  | cons d rest =>
    simp only [validateDiskConfig, hdisk, locatePartitions_eq]
    constructor
    · intro h
      cases hefi : lastSatisfying isEfiCandidate d.partition with
      | none => rw [hefi] at h; cases h
      | some e =>
        cases hroot : lastSatisfying isRootCandidate d.partition with
        | none => rw [hefi, hroot] at h; cases h
        | some r =>
          rw [hefi, hroot] at h
          dsimp only at h
          refine ⟨d, rest, rfl, ?_, r, hroot, ?_⟩
          · rw [← lastSatisfying_isSome_iff_any, hefi]
            rfl
          · by_contra hsub
            simp only [Bool.not_eq_true] at hsub
            simp [hsub, Except.isOk, Except.toBool] at h
    · rintro ⟨d', rest', heq, hany, r, hroot, hsub⟩
      injection heq with h1 h2
      subst h1
      subst h2
      rw [← lastSatisfying_isSome_iff_any] at hany
      cases hefi : lastSatisfying isEfiCandidate d.partition with
      | none => rw [hefi] at hany; cases hany
      | some e =>
        rw [hroot]
        dsimp only
        rw [hsub]
        rfl

/-- C8: when validation fails (no disk, or missing EFI / encrypted-BTRFS
root / subvolume list), `prepare_disk` raises the `ValueError` before any
`executor.run` call: the event list is empty (hence nothing was spawned),
no cleanup runs, and the same error is raised for every oracle and for
both dry-run modes. -/
theorem prepare_disk_validation_error_before_any_command
    (os : Nat → ProcResult) (cfg : Config) (pw : String) (dry : Bool) (m : String)
    (h : validateDiskConfig cfg = .error m) :
    prepare_disk os cfg pw dry = ⟨[], 0, .error (.valueError m)⟩ := by
  rw [prepare_disk, h]

/-- Witness for C8 at a concrete failing configuration (no disks) with
dry-run enabled: the configuration error is still raised and zero
commands are issued. -/
theorem prepare_disk_validation_error_witness :
    validateDiskConfig { disk := [] } =
        .error "Configuration requires at least one disk." ∧
      prepare_disk osAllOk { disk := [] } "123" true =
        ⟨[], 0, .error (.valueError "Configuration requires at least one disk.")⟩ :=
  ⟨by rfl,
    prepare_disk_validation_error_before_any_command osAllOk { disk := [] } "123" true
      "Configuration requires at least one disk." (by rfl)⟩

/-- C2: if validation passed and some step of the `try` block raised a
`ShellCommandError` `e` (this quantifies over every oracle, so over every
way a command can fail), then `prepare_disk` invokes `cleanup_mounts`
exactly once and re-raises exactly `e` — same constructor (kind) and same
payload (message).  Because the oracle is universally quantified, the
conclusion also holds when the cleanup handler's own unmount/luksClose
commands fail: `cleanup_mounts` swallows their exceptions (its `try`
block catches everything) and cannot replace the re-raised error. -/
theorem prepare_disk_step_failure_cleanup_once_and_reraise
    (os : Nat → ProcResult) (cfg : Config) (pw : String) (dry : Bool)
    (d : Disk) (efi root : Partition)
    (hval : validateDiskConfig cfg = .ok (d, efi, root))
    (hpw : ¬(pw = "" ∧ dry = false))
    (evs : List Event) (ctr : Nat) (e : ShellErr)
    (hrun : runSteps os 0 (plannedSteps d efi root pw) dry = .failed evs ctr e) :
    prepare_disk os cfg pw dry =
      ⟨evs ++ (cleanup_mounts os ctr dry).1, 1, .error (.shell e)⟩ := by
  rw [prepare_disk, hval]
  dsimp only
  rw [if_neg hpw, hrun]

/-- Witness for C2: on the concrete scenario plan, with the oracle
failing at the FormatFilesystems step and making both cleanup commands
fail, `prepare_disk` performs exactly one cleanup invocation and
re-raises the step's original error unchanged. -/
theorem prepare_disk_step_failure_witness :
    prepare_disk osFailMkfs cfgScen "123" false =
      ⟨(runSteps osFailMkfs 0 (plannedSteps diskScen partEfiScen partRootScen "123")
            false).eventsOf ++
          (cleanup_mounts osFailMkfs
            (runSteps osFailMkfs 0 (plannedSteps diskScen partEfiScen partRootScen "123")
               false).ctrOf false).1,
        1,
        .error (.shell
          (runSteps osFailMkfs 0 (plannedSteps diskScen partEfiScen partRootScen "123")
             false).errOf)⟩ :=
  prepare_disk_step_failure_cleanup_once_and_reraise osFailMkfs cfgScen "123" false
    diskScen partEfiScen partRootScen (by rfl) (by simp)
    (runSteps osFailMkfs 0 (plannedSteps diskScen partEfiScen partRootScen "123")
      false).eventsOf
    (runSteps osFailMkfs 0 (plannedSteps diskScen partEfiScen partRootScen "123")
      false).ctrOf
    (runSteps osFailMkfs 0 (plannedSteps diskScen partEfiScen partRootScen "123")
      false).errOf
    (by rfl)

/-- C9: on the concrete scenario plan (`/dev/sdb`, EFI `EF00` `4G` vfat at
`/efi`, ROOT `8304` `10G` encrypted btrfs with subvolumes `/`, `/var`,
`/.snapshots`), a dry run completes without error, issues the steps in
the specified forward order (wipe, partitioning, table reread, LUKS
format, LUKS open, EFI and BTRFS filesystem creation, first mount,
subvolume creation, unmount, remount, per-subvolume mounts, EFI mount),
spawns no process, and the ordered description list ends with the
"Mounting EFI partition" step. -/
theorem prepare_disk_scenario_dry_run_trace :
    (prepare_disk osAllOk cfgScen "123" true).result = .ok () ∧
      (prepare_disk osAllOk cfgScen "123" true).events.map Event.descr =
        [ "Wiping existing partitions and partition table on /dev/sdb"
        , "Creating partitions based on config"
        , "Updating kernel partition table"
        , "Encrypting root partition /dev/sdb2 with luks2 (Non-Interactive)"
        , "Opening LUKS volume as /dev/mapper/linuxroot (Non-Interactive)"
        , "Creating VFAT filesystem on EFI partition /dev/sdb1"
        , "Creating BTRFS filesystem on LUKS volume /dev/mapper/linuxroot"
        , "Mounting BTRFS volume /dev/mapper/linuxroot to /mnt for subvolume creation"
        , "Creating BTRFS subvolume @@"
        , "Creating BTRFS subvolume @var"
        , "Creating BTRFS subvolume @.snapshots"
        , "Unmounting /mnt to prepare for subvolume remounting"
        , "Remounting BTRFS root subvolume to /mnt with options: noatime,compress=zstd,subvol=@"
        , "Creating destination directory /mnt/var"
        , "Mounting subvolume @var to /mnt/var"
        , "Creating destination directory /mnt/.snapshots"
        , "Mounting subvolume @.snapshots to /mnt/.snapshots"
        , "Creating EFI mount point /mnt/efi"
        , "Mounting EFI partition /dev/sdb1 to /mnt/efi" ] ∧
      ((prepare_disk osAllOk cfgScen "123" true).events.map Event.descr).getLast? =
        some "Mounting EFI partition /dev/sdb1 to /mnt/efi" ∧
      (prepare_disk osAllOk cfgScen "123" true).events.all
        (fun ev => ev.spawns.isEmpty) = true := by
  refine ⟨by rfl, by rfl, by rfl, by rfl⟩

/-- C5 counterexample: two dry runs of `prepare_disk` on the same plan
that differ only in the passphrase issue DIFFERENT command sequences —
the passphrase is interpolated into the `printf "..." | cryptsetup ...`
shell command strings, not kept off the command text. -/
theorem passphrase_appears_in_command_text :
    (prepare_disk osAllOk cfgScen "aaa" true).events.map Event.cmd ≠
      (prepare_disk osAllOk cfgScen "bbb" true).events.map Event.cmd := by
  decide

theorem stepsBeforeLuks_length (d : Disk) :
    (stepsBeforeLuks d).length = luksFormatIdx d := by
  cases h : d.wipe <;> simp [stepsBeforeLuks, luksFormatIdx, h]

/-- C5 (amended): the command sequence `prepare_disk` issues is the same
for two runs differing only in the passphrase at every position EXCEPT
the two LUKS steps (`luksFormat` at index `luksFormatIdx` and `luksOpen`
right after it), whose piped shell strings embed the passphrase; the
step count and every description are identical.  The passphrase thus
reaches `cryptsetup` through the command text of exactly those two
steps (via the `printf` pipe), not through any other command. -/
theorem planned_commands_differ_only_at_luks_steps
    (d : Disk) (efi root : Partition) (pw1 pw2 : String) :
    (plannedSteps d efi root pw1).length = (plannedSteps d efi root pw2).length ∧
      (plannedSteps d efi root pw1).map Step.descr =
        (plannedSteps d efi root pw2).map Step.descr ∧
      ∀ i : Nat, i ≠ luksFormatIdx d → i ≠ luksFormatIdx d + 1 →
        (plannedSteps d efi root pw1)[i]? = (plannedSteps d efi root pw2)[i]? := by
  have hA : (stepsBeforeLuks d).length = luksFormatIdx d := stepsBeforeLuks_length d
  have hL : ∀ pw, (luksSteps d root pw).length = 2 := fun _ => rfl
  refine ⟨?_, ?_, ?_⟩
  · simp [plannedSteps, luksSteps]
  · simp [plannedSteps, luksSteps]
  · intro i h1 h2
    rcases Nat.lt_or_ge i (luksFormatIdx d) with hlt | hge
    · rw [plannedSteps, plannedSteps, List.append_assoc, List.append_assoc,
        List.getElem?_append_left (by omega : i < (stepsBeforeLuks d).length),
        List.getElem?_append_left (by omega : i < (stepsBeforeLuks d).length)]
    · have hge2 : luksFormatIdx d + 2 ≤ i := by omega
      rw [plannedSteps, plannedSteps, List.append_assoc, List.append_assoc,
        List.getElem?_append_right (by omega : (stepsBeforeLuks d).length ≤ i),
        List.getElem?_append_right (by omega : (stepsBeforeLuks d).length ≤ i),
        List.getElem?_append_right (by rw [hL] ; omega :
          (luksSteps d root pw1).length ≤ i - (stepsBeforeLuks d).length),
        List.getElem?_append_right (by rw [hL] ; omega :
          (luksSteps d root pw2).length ≤ i - (stepsBeforeLuks d).length),
        hL, hL]

/-- Witness for C5 (amended) at the scenario plan: position 0 (the wipe
command, away from the LUKS indices) is identical across two passphrases. -/
theorem planned_commands_differ_witness :
    (plannedSteps diskScen partEfiScen partRootScen "aaa")[0]? =
      (plannedSteps diskScen partEfiScen partRootScen "bbb")[0]? :=
  (planned_commands_differ_only_at_luks_steps diskScen partEfiScen partRootScen
      "aaa" "bbb").2.2 0 (by decide) (by decide)

/-- C3 counterexample: a NON-empty command whose string fails shell-word
splitting (unterminated quote) raises `InvalidCommandError` from
`Executor.run` even with `dryrun=True`, so "every non-empty command
returns the fixed dry-run success" is false of the code. -/
theorem dry_run_rejects_unparseable_command :
    badQuoteCmd ≠ "" ∧
      runExec (.completed 0 "" "") "/mnt" (.str badQuoteCmd) false true true true false =
        ⟨[], .error (.invalidCommandError badQuoteCmd
          "Failed to parse command string: No closing quotation")⟩ := by
  exact ⟨by decide, by rfl⟩

/-- C3 (amended): with `dryrun=True`, `Executor.run` spawns no process
and returns the fixed synthetic success `(0, "DRY_RUN_STDOUT",
"DRY_RUN_STDERR")` for every command that passes `_prepare_command`
(non-empty and, for a string command, splittable); a syntactically empty
command — the empty string or the empty list — raises
`InvalidCommandError` even in dry-run mode, as does a non-empty string
command that fails shell-word splitting. -/
theorem run_dry_run_behaviour
    (proc : ProcResult) (chrootPath : String) (cmd : Cmd)
    (chroot cap check shell : Bool) (args : List String)
    (hprep : prepare_command cmd chroot chrootPath = .ok args) :
    runExec proc chrootPath cmd chroot true cap check shell =
        ⟨[], .ok (0, "DRY_RUN_STDOUT", "DRY_RUN_STDERR")⟩ ∧
      (∀ (proc2 : ProcResult) (cp2 : String) (c2 cp2' ck2 sh2 : Bool),
        runExec proc2 cp2 (.str "") c2 true cp2' ck2 sh2 =
          ⟨[], .error (.invalidCommandError "" "Command cannot be empty.")⟩) ∧
      (∀ (proc2 : ProcResult) (cp2 : String) (c2 cp2' ck2 sh2 : Bool),
        runExec proc2 cp2 (.args []) c2 true cp2' ck2 sh2 =
          ⟨[], .error (.invalidCommandError "[]" "Command cannot be empty.")⟩) := by
  refine ⟨?_, ?_, ?_⟩
  · rw [runExec, hprep]
    rfl
  · intro proc2 cp2 c2 cp2' ck2 sh2
    rfl
  · intro proc2 cp2 c2 cp2' ck2 sh2
    rfl

/-- Witness for C3 (amended): a concrete well-formed command under
dry-run returns the fixed success with zero spawned processes. -/
theorem run_dry_run_behaviour_witness :
    runExec (.completed 7 "x" "y") "/mnt" (.str "pacman -Syu") false true true true false =
      ⟨[], .ok (0, "DRY_RUN_STDOUT", "DRY_RUN_STDERR")⟩ :=
  (run_dry_run_behaviour (.completed 7 "x" "y") "/mnt" (.str "pacman -Syu")
    false true true false ["pacman", "-Syu"] (by rfl)).1

/-- C4: under `check=True`, a non-zero exit is classified by a
case-insensitive scan of stderr and the exit code — "command not found" /
"no such file or directory" or exit 127 gives `CommandNotFoundError`,
otherwise "permission denied" or exit 126 gives `PermissionDeniedError`,
and any other non-zero exit raises the generic `ShellCommandError`
carrying the command string, exit code, stdout and stderr; timeout expiry
raises `CommandTimeoutError` and a process-spawn `FileNotFoundError`
raises `CommandNotFoundError`, both distinct kinds from the generic
non-zero-exit failure. -/
theorem execute_command_failure_classification
    (l : List String) (code : Int) (out err : String) (hcode : code ≠ 0) :
    (pyIn "command not found" (pyLower err) = true ∨
        pyIn "no such file or directory" (pyLower err) = true ∨ code = 127 →
      execute_command (.completed code out err) (.args l) true true false =
        ⟨[.argv l], .error (.commandNotFoundError (shlexJoin l) out err)⟩) ∧
      (¬pyIn "command not found" (pyLower err) = true →
        ¬pyIn "no such file or directory" (pyLower err) = true → code ≠ 127 →
        pyIn "permission denied" (pyLower err) = true ∨ code = 126 →
        execute_command (.completed code out err) (.args l) true true false =
          ⟨[.argv l], .error (.permissionDeniedError (shlexJoin l) out err)⟩) ∧
      (¬pyIn "command not found" (pyLower err) = true →
        ¬pyIn "no such file or directory" (pyLower err) = true → code ≠ 127 →
        ¬pyIn "permission denied" (pyLower err) = true → code ≠ 126 →
        execute_command (.completed code out err) (.args l) true true false =
          ⟨[.argv l], .error (.shellCommandError (shlexJoin l) code out err
            ("Command failed with exit code " ++ toString code))⟩) ∧
      (∀ out2 err2,
        execute_command (.timedOut out2 err2) (.args l) true true false =
          ⟨[.argv l], .error (.commandTimeoutError (shlexJoin l) out2 err2)⟩) ∧
      execute_command .spawnNotFound (.args l) true true false =
        ⟨[.argv l], .error (.commandNotFoundError (shlexJoin l) ""
          "Command not found. Check PATH.")⟩ := by
  refine ⟨?_, ?_, ?_, ?_, ?_⟩
  · rintro (h | h | h) <;>
      simp [execute_command, classifyNonZero, Cmd.logStr, hcode, h]
  · intro h1 h2 h3 h4
    rcases h4 with h | h <;>
      simp [execute_command, classifyNonZero, Cmd.logStr, hcode, h1, h2, h3, h]
  · intro h1 h2 h3 h4 h5
    simp [execute_command, classifyNonZero, Cmd.logStr, hcode, h1, h2, h3, h4, h5]
  · intro out2 err2
    rfl
  · rfl

/-- Witness for C4 at a concrete unclassified failure: exit code 9 with
an unrecognized stderr raises the generic `ShellCommandError` carrying
command string, exit code, stdout and stderr. -/
theorem execute_command_failure_classification_witness :
    execute_command (.completed 9 "some output" "disk is full")
        (.args ["mkfs.vfat"]) true true false =
      ⟨[.argv ["mkfs.vfat"]], .error (.shellCommandError "mkfs.vfat" 9
        "some output" "disk is full" "Command failed with exit code 9")⟩ :=
  (execute_command_failure_classification ["mkfs.vfat"] 9 "some output" "disk is full"
      (by decide)).2.2.1 (by decide) (by decide) (by decide) (by decide) (by decide)

/-- C6 counterexample: with `chroot=True` AND `shell=True`, `run` hands
the shell the ORIGINAL command string, so the chroot invocation is
dropped — the executed request is not the `arch-chroot`-prefixed argv. -/
theorem chroot_dropped_when_shell_true :
    (runExec (.completed 0 "" "") "/mnt" (.args ["ls"]) true false true true true).spawns
        = [.shellCmd "ls"] ∧
      ([SpawnReq.shellCmd "ls"] : List SpawnReq) ≠
        [.argv (["arch-chroot", "/mnt"] ++ ["ls"])] := by
  exact ⟨by rfl, by decide⟩

/-- C6 (amended): for every command executed with `chroot=True` and
`shell=False` (the mode `prepare_disk` uses), the argv handed to the
operating system is exactly `arch-chroot`, then the mount root `/mnt`,
then the original arguments; with `shell=True` the prepared chroot prefix
is discarded (see the counterexample). -/
theorem run_chroot_prepends_mount_root
    (proc : ProcResult) (cmd : Cmd) (args : List String) (cap check : Bool)
    (hprep : prepare_command cmd false "/mnt" = .ok args) :
    prepare_command cmd true "/mnt" = .ok ("arch-chroot" :: "/mnt" :: args) ∧
      (runExec proc "/mnt" cmd true false cap check false).spawns =
        [.argv ("arch-chroot" :: "/mnt" :: args)] := by
  have hparse : parseCommand cmd = .ok args := by
    rw [prepare_command] at hprep
    cases hp : parseCommand cmd with
    | error e => rw [hp] at hprep; cases hprep
    | ok parsed =>
      rw [hp] at hprep
      simp only [if_neg Bool.false_ne_true, reduceIte] at hprep
      cases hprep
      rfl
  have hchroot : prepare_command cmd true "/mnt" = .ok ("arch-chroot" :: "/mnt" :: args) := by
    rw [prepare_command, hparse]
    rfl
  refine ⟨hchroot, ?_⟩
  rw [runExec, hchroot]
  cases proc <;> simp [execute_command, apply_ite RunResult.spawns]

/-- Witness for C6 (amended) at a concrete command list. -/
theorem run_chroot_prepends_mount_root_witness :
    (runExec (.completed 0 "" "") "/mnt" (.args ["pacman", "-Syu"])
        true false true true false).spawns =
      [.argv ("arch-chroot" :: "/mnt" :: ["pacman", "-Syu"])] :=
  (run_chroot_prepends_mount_root (.completed 0 "" "") (.args ["pacman", "-Syu"])
    ["pacman", "-Syu"] true true (by rfl)).2

/-- C10: whenever `execute_command` is called with `check=True` and
returns a tuple instead of raising, the returned exit code is 0 — and the
same holds for `run` (including its dry-run path, which returns the fixed
exit code 0). -/
theorem check_true_normal_return_has_exit_zero :
    (∀ (proc : ProcResult) (cmd : Cmd) (cap shell : Bool) (sp : List SpawnReq)
      (code : Int) (out err : String),
      execute_command proc cmd cap true shell = ⟨sp, .ok (code, out, err)⟩ →
        code = 0) ∧
      (∀ (proc : ProcResult) (cp : String) (cmd : Cmd) (chroot dry cap shell : Bool)
        (sp : List SpawnReq) (code : Int) (out err : String),
        runExec proc cp cmd chroot dry cap true shell = ⟨sp, .ok (code, out, err)⟩ →
          code = 0) := by
  have key : ∀ (proc : ProcResult) (cmd : Cmd) (cap shell : Bool) (sp : List SpawnReq)
      (code : Int) (out err : String),
      execute_command proc cmd cap true shell = ⟨sp, .ok (code, out, err)⟩ →
        code = 0 := by
    intro proc cmd cap shell sp code out err h
    unfold execute_command at h
    cases proc <;> dsimp only at h <;> repeat' split at h
    all_goals
      simp_all only [RunResult.mk.injEq, Except.ok.injEq, Except.error.injEq,
        Prod.mk.injEq, reduceCtorEq, and_false, false_and, and_true, true_and]
    all_goals omega
  refine ⟨key, ?_⟩
  intro proc cp cmd chroot dry cap shell sp code out err h
  rw [runExec] at h
  split at h
  · simp at h
  · split at h
    · simp only [RunResult.mk.injEq, Except.ok.injEq, Prod.mk.injEq] at h
      exact h.2.1.symm
    · exact key proc _ cap shell sp code out err h

/-- Witness for C10 at a concrete successful call. -/
theorem check_true_normal_return_witness :
    execute_command (.completed 0 "hello" "") (.args ["true"]) true true false =
        ⟨[.argv ["true"]], .ok (0, "hello", "")⟩ ∧
      (0 : Int) = 0 :=
  ⟨by rfl,
    check_true_normal_return_has_exit_zero.1 (.completed 0 "hello" "")
      (.args ["true"]) true false [.argv ["true"]] 0 "hello" "" (by rfl)⟩

/-- C7 counterexample: the subvolume-name cleaning
`s.strip('/').lstrip('@')` is NOT idempotent — on `"@/var"` the first
pass yields `"/var"` and the second `"var"`. -/
theorem cleanSubvolName_not_idempotent :
    cleanSubvolName (cleanSubvolName "@/var") ≠ cleanSubvolName "@/var" := by
  decide

theorem headNotC_dropWhile (c : Char) (l : List Char) :
    headNotC c (l.dropWhile (· = c)) := by
  induction l with
  | nil => trivial
  | cons a l ih =>
    rw [List.dropWhile_cons]
    by_cases h : a = c
    · simpa [h] using ih
    · rw [if_neg (by simpa using h)]
      exact h

theorem dropWhile_eq_self_of_headNotC (c : Char) (l : List Char)
    (h : headNotC c l) : l.dropWhile (· = c) = l := by
  cases l with
  | nil => rfl
  | cons a l => rw [List.dropWhile_cons]; simp [headNotC] at h; simp [h]

theorem headNotC_of_isPre (c : Char) {s l : List Char}
    (hp : s <+: l) (h : headNotC c l) : headNotC c s := by
  cases s with
  | nil => trivial
  | cons d ds =>
    obtain ⟨t, ht⟩ := hp
    rw [← ht] at h
    exact h

theorem headNotC_pyStripList (c : Char) (l : List Char) :
    headNotC c (pyStripList c l) := by
  have hsfx : (l.dropWhile (· = c)).reverse.dropWhile (· = c) <:+
      (l.dropWhile (· = c)).reverse := List.dropWhile_suffix _
  have hpre : ((l.dropWhile (· = c)).reverse.dropWhile (· = c)).reverse <+:
      l.dropWhile (· = c) := by
    have h2 := List.reverse_prefix.mpr hsfx
    rwa [List.reverse_reverse] at h2
  exact headNotC_of_isPre c hpre (headNotC_dropWhile c l)

theorem headNotC_pyStripList_reverse (c : Char) (l : List Char) :
    headNotC c (pyStripList c l).reverse := by
  rw [pyStripList, List.reverse_reverse]
  exact headNotC_dropWhile c _

theorem pyStripList_eq_self (c : Char) (l : List Char)
    (h1 : headNotC c l) (h2 : headNotC c l.reverse) : pyStripList c l = l := by
  rw [pyStripList, dropWhile_eq_self_of_headNotC c l h1,
    dropWhile_eq_self_of_headNotC c l.reverse h2, List.reverse_reverse]

/-- C7 (amended): the subvolume normalization of `prepare_disk` is total
over all strings; cleaning `/` yields the empty name, so `/` is
represented by the root subvolume `@` (always member of the creation set)
and receives no separate mount — it stays at the mount root; `/var/tmp`
cleans to `var/tmp` with mount path `/mnt/var/tmp`; the cleaning is
idempotent on every input whose cleaned form does not begin with `/`
(stripping leading `@` may expose a leading `/`, so full idempotence
fails — see the counterexample); and the deduplicated creation set always
contains `@` even when `/` is not listed. -/
theorem subvolume_normalization_properties :
    (cleanSubvolName "/" = "" ∧
        subvolumesToCreate ["/"] = ["@"] ∧
        ∀ opts dev, remountStepsFor opts dev "/" = []) ∧
      (cleanSubvolName "/var/tmp" = "var/tmp" ∧
        pyPathJoin "/mnt" (cleanSubvolName "/var/tmp") = "/mnt/var/tmp") ∧
      (∀ x : String, strStartsWithChar '/' (cleanSubvolName x) = false →
        cleanSubvolName (cleanSubvolName x) = cleanSubvolName x) ∧
      (∀ subvols : List String, "@" ∈ dedupKeepFirst (subvolumesToCreate subvols)) := by
  refine ⟨⟨by rfl, by rfl, fun opts dev => by rfl⟩, ⟨by rfl, by rfl⟩, ?_, ?_⟩
  · intro x hx
    have hclean : cleanSubvolName x =
        String.mk ((pyStripList '/' x.data).dropWhile (· = '@')) := rfl
    have h_at : headNotC '@' ((pyStripList '/' x.data).dropWhile (· = '@')) :=
      headNotC_dropWhile '@' _
    have h_slash : headNotC '/' ((pyStripList '/' x.data).dropWhile (· = '@')) := by
      rw [hclean] at hx
      cases hz : (pyStripList '/' x.data).dropWhile (· = '@') with
      | nil => trivial
      | cons d ds =>
        rw [hz] at hx
        simp only [strStartsWithChar, decide_eq_false_iff_not] at hx
        exact hx
    have hsfx : (pyStripList '/' x.data).dropWhile (· = '@') <:+
        pyStripList '/' x.data := List.dropWhile_suffix _
    have hpre : ((pyStripList '/' x.data).dropWhile (· = '@')).reverse <+:
        (pyStripList '/' x.data).reverse := List.reverse_prefix.mpr hsfx
    have h_rev : headNotC '/' ((pyStripList '/' x.data).dropWhile (· = '@')).reverse :=
      headNotC_of_isPre '/' hpre (headNotC_pyStripList_reverse '/' x.data)
    rw [hclean]
    have hstep : cleanSubvolName
        (String.mk ((pyStripList '/' x.data).dropWhile (· = '@'))) =
        String.mk ((pyStripList '/'
          ((pyStripList '/' x.data).dropWhile (· = '@'))).dropWhile (· = '@')) := rfl
    rw [hstep, pyStripList_eq_self '/' _ h_slash h_rev,
      dropWhile_eq_self_of_headNotC '@' _ h_at]
  · intro subvols
    rw [subvolumesToCreate, dedupKeepFirst]
    exact List.mem_cons_self _ _

/-- Witness for C7 (amended), at an input whose cleaned form has no
leading slash: the cleaning is idempotent there. -/
theorem subvolume_normalization_witness :
    strStartsWithChar '/' (cleanSubvolName "var") = false ∧
      cleanSubvolName (cleanSubvolName "var") = cleanSubvolName "var" :=
  ⟨by decide, subvolume_normalization_properties.2.2.1 "var" (by decide)⟩

end PureArch
